import Mathlib

/-!
Verification of the `aiofreepybox` bootstrap protocol (`aiofreepybox/aiofreepybox.py`).

This file is a shallow embedding of the parts of the `Freepybox` class that the
specification's claims talk about:

* the credential file (JSON object) and its read/write helpers
  (`_readfile_app_token`, `_writefile_app_token`);
* the pairing orchestrator `_get_app_access` with its authorization-status
  polling loop;
* API version negotiation `_check_api_version`;
* host/port fallback resolution `_disc_set_host_and_port`;
* the discovery state machine `discover` (with `_disc_check_session`,
  `_disc_close_to_return`, `_disc_connect`) over an explicit client state and a
  network oracle;
* the two-pass open negotiation `_open_init` / `_open_setup`.

Effectful Python code is modelled by explicit state passing plus trace records
that count the observable effects (HTTP requests issued, prompts printed,
one-second sleeps, connections opened, file writes).
-/

namespace Aiofreepybox

/-! ### Module-level constants (`aiofreepybox.py`, top of file) -/

def DEFAULT_API_VERSION : String := "v6"
def DEFAULT_DEVICE_NAME : String := "Freebox Server"
def DEFAULT_HOST : String := "mafreebox.freebox.fr"
def DEFAULT_HTTP_PORT : String := "80"
def DEFAULT_HTTPS_PORT : String := "443"
def DEFAULT_SSL : Bool := true
def DEFAULT_UNKNOWN : String := "None"

/-! ### Python string helpers

These are character-list implementations of the Python string operations the
source uses (`int(str)`, `str < str`, `s.split(".")[0]`, `s[1:]`, f-string
prefixing, truthiness).  They are written by structural recursion over
`String.data` so that every concrete instance reduces inside the kernel. -/

def isSpaceChar (c : Char) : Bool :=
  c == ' ' || c == '\t' || c == '\n' || c == '\r'

def isDigitChar (c : Char) : Bool :=
  48 ≤ c.toNat && c.toNat ≤ 57

def digitsValAux : List Char → Nat → Option Nat
  | [], acc => some acc
  | c :: cs, acc =>
    if isDigitChar c then digitsValAux cs (acc * 10 + (c.toNat - 48))
    else none

/-- Value of a non-empty all-digit character run. -/
def digitsVal : List Char → Option Nat
  | [] => none
  | cs => digitsValAux cs 0

/-- Python's `int(str)`: optional surrounding whitespace, an optional sign,
then decimal digits; `none` models the `ValueError` raise.  (Python also
allows underscores between digits and non-ASCII digits; no input in this
code base carries either.) -/
def pyInt? (s : String) : Option Int :=
  let t := ((s.data.dropWhile isSpaceChar).reverse.dropWhile isSpaceChar).reverse
  match t with
  | '-' :: ds => (digitsVal ds).map (fun n => -(n : Int))
  | '+' :: ds => (digitsVal ds).map (fun n => (n : Int))
  | ds => (digitsVal ds).map (fun n => (n : Int))

/-- Python's `<` on strings: lexicographic by code point. -/
def pyStrLtAux : List Char → List Char → Bool
  | _, [] => false
  | [], _ :: _ => true
  | a :: as, b :: bs =>
    if a.toNat < b.toNat then true
    else if b.toNat < a.toNat then false
    else pyStrLtAux as bs

def pyStrLt (a b : String) : Bool :=
  pyStrLtAux a.data b.data

/-- Python's truthiness of an optional string: `None` and `""` are falsy. -/
def pyTruthy : Option String → Bool
  | none => false
  | some s => !s.data.isEmpty

/-- Python's `s[1:]`. -/
def strDrop1 (s : String) : String :=
  ⟨s.data.drop 1⟩

/-- Python's `c in s` for a single character. -/
def strContainsChar (s : String) (c : Char) : Bool :=
  s.data.contains c

/-! ### Application descriptor and the credential file

`ApplicationDescriptor` is the four-field identity block (`_APP_DESC` shape;
`_is_app_desc_valid` checks exactly these four keys).  The credential file is
a JSON object; we model JSON values as strings or null, which covers every
value this code ever writes or compares. -/

structure ApplicationDescriptor where
  app_id : String
  app_name : String
  app_version : String
  device_name : String
deriving DecidableEq, Repr

inductive JsonVal
  | str (s : String)
  | null
deriving DecidableEq, Repr

def JsonObj := List (String × JsonVal)
deriving DecidableEq, Repr

/-- Dictionary lookup `d[k]` / `k in d` on a JSON object. -/
def jget (o : JsonObj) (k : String) : Option JsonVal :=
  (List.find? (fun p => p.1 == k) o).map (fun p => p.2)

def jsonToOptStr : JsonVal → Option String
  | .str s => some s
  | .null => none

/-- Lookup of a descriptor key: a missing key and a JSON null both become
`none`.  (Python keeps a present-but-null key in the comprehension dict, but
either way the comparison against a four-string descriptor dict fails, so the
distinction is not observable in `_get_app_access`.) -/
def jgetStr? (o : JsonObj) (k : String) : Option String :=
  match jget o k with
  | some v => jsonToOptStr v
  | none => none

/-- The subset of descriptor fields present in the credential file:
`{k: d[k] for k in (...) if k in d}` in `_readfile_app_token`. -/
structure PartialDescriptor where
  app_id : Option String
  app_name : Option String
  app_version : Option String
  device_name : Option String
deriving DecidableEq, Repr

def toPartial (d : ApplicationDescriptor) : PartialDescriptor :=
  ⟨some d.app_id, some d.app_name, some d.app_version, some d.device_name⟩

/-- `_readfile_app_token`: `(None, None, None)` on a missing file
(`FileNotFoundError`); otherwise `d["app_token"]`, `d["track_id"]` (a missing
key raises `KeyError`, modelled as `.error ()`) and the partial descriptor. -/
def readfileAppToken : Option JsonObj →
    Except Unit (Option String × Option String × Option PartialDescriptor)
  | none => .ok (none, none, none)
  | some d =>
    match jget d "app_token", jget d "track_id" with
    | some tv, some trv =>
      .ok (jsonToOptStr tv, jsonToOptStr trv,
        some ⟨jgetStr? d "app_id", jgetStr? d "app_name",
              jgetStr? d "app_version", jgetStr? d "device_name"⟩)
    | _, _ => .error ()

/-- `_writefile_app_token`: serializes `{**app_desc, "app_token": app_token,
"track_id": track_id}` (dict insertion order: the four descriptor keys, then
the two token keys). -/
def writefileAppToken (app_token track_id : String)
    (app_desc : ApplicationDescriptor) : JsonObj :=
  [("app_id", .str app_desc.app_id),
   ("app_name", .str app_desc.app_name),
   ("app_version", .str app_desc.app_version),
   ("device_name", .str app_desc.device_name),
   ("app_token", .str app_token),
   ("track_id", .str track_id)]

/-- Python's `file_app_desc != app_desc` comparison in `_get_app_access`:
`None != dict` is true; two dicts are equal iff same keys and values, so a
partial descriptor equals the caller's four-field descriptor iff all four
fields are present with the same values. -/
def fileDescMismatch : Option PartialDescriptor → ApplicationDescriptor → Bool
  | none, _ => true
  | some p, d => if p = toPartial d then false else true

/-! ### The authorization-status polling loop of `_get_app_access`

The Python loop is

```
out_msg_flag = False
status = None
while status != "granted":
    status = await self._get_authorization_status(...)
    if status == "denied": raise AuthorizationError(...)
    elif status == "pending":
        if not out_msg_flag:
            out_msg_flag = True
            print(...)
        await asyncio.sleep(1)
    elif status == "timeout": raise AuthorizationError(...)
```

`pollLoop` consumes the list of statuses the appliance returns on successive
polls, one status fetch (= one `GET login/authorize/{track_id}`) per list
element, and records the counts of observable effects.  The `.exhausted`
outcome means the modelled status supply ran out while the loop would keep
polling. -/

inductive PollOutcome
  | granted
  | denied
  | timeout
  | exhausted
deriving DecidableEq, Repr

structure PollResult where
  requests : Nat
  prompts : Nat
  sleeps : Nat
  outcome : PollOutcome
deriving DecidableEq, Repr

def pollLoop : List String → Bool → PollResult
  | [], _ => ⟨0, 0, 0, .exhausted⟩
  | status :: rest, out_msg_flag =>
    if status = "denied" then ⟨1, 0, 0, .denied⟩
    else if status = "pending" then
      let sub := pollLoop rest true
      ⟨sub.requests + 1, sub.prompts + (if out_msg_flag then 0 else 1),
       sub.sleeps + 1, sub.outcome⟩
    else if status = "timeout" then ⟨1, 0, 0, .timeout⟩
    else if status = "granted" then ⟨1, 0, 0, .granted⟩
    else
      let sub := pollLoop rest out_msg_flag
      ⟨sub.requests + 1, sub.prompts, sub.sleeps, sub.outcome⟩

/-- Classification of a status as terminal for the loop: the loop stops at
`granted` (the `while` condition) and raises at `denied` and `timeout`; every
other value falls through all branches and the loop polls again. -/
def terminalOutcome? (s : String) : Option PollOutcome :=
  if s = "granted" then some .granted
  else if s = "denied" then some .denied
  else if s = "timeout" then some .timeout
  else none

/-! ### `_get_app_access` -/

/-- Error kinds of the pairing orchestrator.  In the Python source all three
are `AuthorizationError` raises distinguished by message: `rejected` is
"Authorization failed (APIResponse: ...)" from `_get_app_token`, `denied` is
"The app token is invalid or has been revoked.", `timedOut` is
"Authorization timed out.". -/
inductive PairError
  | rejected
  | denied
  | timedOut
deriving DecidableEq, Repr

inductive AccessResult
  | ok (app_token : String)
  | err (e : PairError)
  | stillPolling
  | readCrash
deriving DecidableEq, Repr

/-- Environment of one `_get_app_access` run: the appliance's answer to the
`POST login/authorize/` request (success flag plus the fresh token and track
id) and the statuses it reports on successive polls. -/
structure PairEnv where
  authSuccess : Bool
  newAppToken : String
  newTrackId : String
  statuses : List String
deriving DecidableEq, Repr

/-- Observable trace of one `_get_app_access` run.  `authorizeRequests` counts
`POST login/authorize/` submissions, `statusRequests` counts
`GET login/authorize/{track_id}` polls, `fileAfter` is the credential file
content when the call returns or raises. -/
structure AppAccessTrace where
  authorizeRequests : Nat
  statusRequests : Nat
  prompts : Nat
  sleeps : Nat
  fileAfter : Option JsonObj
  result : AccessResult
deriving DecidableEq, Repr

/-- `_get_app_access`: read the stored token; if no token is stored or the
stored descriptor differs from the caller's, run the pairing flow
(`_get_app_token`, the status poll loop, `_writefile_app_token`); otherwise
build the access object from the stored token directly. -/
def getAppAccess (file : Option JsonObj) (app_desc : ApplicationDescriptor)
    (env : PairEnv) : AppAccessTrace :=
  match readfileAppToken file with
  | .error _ => ⟨0, 0, 0, 0, file, .readCrash⟩
  | .ok (app_token, _track_id, file_app_desc) =>
    if app_token.isNone || fileDescMismatch file_app_desc app_desc then
      if !env.authSuccess then ⟨1, 0, 0, 0, file, .err .rejected⟩
      else
        let pl := pollLoop env.statuses false
        match pl.outcome with
        | .granted =>
          ⟨1, pl.requests, pl.prompts, pl.sleeps,
           some (writefileAppToken env.newAppToken env.newTrackId app_desc),
           .ok env.newAppToken⟩
        | .denied => ⟨1, pl.requests, pl.prompts, pl.sleeps, file, .err .denied⟩
        | .timeout => ⟨1, pl.requests, pl.prompts, pl.sleeps, file, .err .timedOut⟩
        | .exhausted => ⟨1, pl.requests, pl.prompts, pl.sleeps, file, .stillPolling⟩
    else
      ⟨0, 0, 0, 0, file, .ok (app_token.getD "")⟩

/-- The pairing branch of `_get_app_access` is taken (the Python condition
`app_token is None or file_app_desc != app_desc` after a successful read). -/
def pairingNeeded (file : Option JsonObj) (d : ApplicationDescriptor) : Bool :=
  match readfileAppToken file with
  | .error _ => false
  | .ok (tok, _, fdesc) => tok.isNone || fileDescMismatch fdesc d

/-! ### `_check_api_version` -/

inductive VersionWarning
  | newApi
  | deprecated
  | reset
deriving DecidableEq, Repr

/-- `self.fbx_desc["api_version"].split(".")[0]`: the characters before the
first dot. -/
def serverVersion (fbx_api_version : String) : String :=
  ⟨fbx_api_version.data.takeWhile (fun c => !(c == '.'))⟩

/-- The `self.api_version` value after the `"server"` substitution
`self.api_version = f"v{server_version}"`. -/
def resolvedApiVersion (api_version fbx_api_version : String) : String :=
  if api_version = "server" then ⟨'v' :: (serverVersion fbx_api_version).data⟩
  else api_version

/-- `_check_api_version` as a function of the requested version and the
appliance-advertised `fbx_desc["api_version"]`.  Returns the resulting
`self.api_version` together with the warnings logged; `none` models the
uncaught `ValueError` that Python's `int()` raises on a non-numeric short
version.  The second branch's `int()` is evaluated once; the third branch's
re-evaluation cannot differ, and when the second branch's condition failed on
`int(short) <= 0` the third branch's `int(short) < 1` disjunct is true, so
the fall-through resets directly. -/
def checkApiVersion (api_version fbx_api_version : String) :
    Option (String × List VersionWarning) :=
  let server_version := serverVersion fbx_api_version
  let short_target := strDrop1 DEFAULT_API_VERSION
  let av := resolvedApiVersion api_version fbx_api_version
  let short := strDrop1 av
  if pyStrLt short_target server_version && short == server_version then
    some (av, [.newApi])
  else if pyStrLt short short_target then
    match pyInt? short with
    | none => none
    | some n =>
      if 0 < n then some (av, [.deprecated])
      else some (DEFAULT_API_VERSION, [.reset])
  else if pyStrLt server_version short then
    some (DEFAULT_API_VERSION, [.reset])
  else
    match pyInt? short with
    | none => none
    | some n =>
      if n < 1 then some (DEFAULT_API_VERSION, [.reset])
      else some (av, [])

/-! ### `_disc_set_host_and_port` -/

/-- `_disc_set_host_and_port`: resolve caller-optional host and port; the
third component is the scheme suffix `s` ("s" for https, "" for http). -/
def discSetHostAndPort (host port : Option String) : String × String × String :=
  let s := if DEFAULT_SSL && port ≠ some DEFAULT_HTTP_PORT then "s" else ""
  if !pyTruthy host && !pyTruthy port then
    (DEFAULT_HOST, if DEFAULT_SSL then DEFAULT_HTTPS_PORT else DEFAULT_HTTP_PORT, s)
  else if !pyTruthy port then
    (host.getD "", DEFAULT_HTTP_PORT, "")
  else if !pyTruthy host then
    (DEFAULT_HOST, port.getD "", s)
  else
    (host.getD "", port.getD "", s)

/-! ### Discovery (`discover`, `_disc_check_session`, `_disc_close_to_return`,
`_disc_connect`)

The client state is the pair of instance attributes `discover` reads and
writes: `self.fbx_desc` and `self._session`.  A session is modelled by the
host/port/TLS key of its (single) pooled connection — the code itself
introspects `self._session._connector._conns` for exactly this triple — plus
a closed flag.  The network is an oracle giving the outcome of the raw socket
pre-check, of TLS context creation, and of the `GET /api_version` request. -/

structure DiscoveryRecord where
  device_name : String
  api_version : String
  api_base_url : String
  https_available : Bool
  api_domain : String
  https_port : String
deriving DecidableEq, Repr

structure ConnInfo where
  host : String
  port : Int
  is_ssl : Bool
deriving DecidableEq, Repr

structure SessionState where
  conn : ConnInfo
  closed : Bool
deriving DecidableEq, Repr

structure ClientState where
  fbx_desc : Option DiscoveryRecord
  session : Option SessionState
deriving DecidableEq, Repr

inductive NetResponse
  | json (r : DiscoveryRecord)
  | nonJson
  | sslVerifyError
deriving DecidableEq, Repr

structure NetOracle where
  sockConnectOk : Bool
  sslCtxOk : Bool
  response : NetResponse
deriving DecidableEq, Repr

/-- Effects of one `discover` call: ClientSessions opened and
`GET /api_version` requests issued. -/
structure DiscEffects where
  connects : Nat
  versionRequests : Nat
deriving DecidableEq, Repr

/-- Result of one `discover` call.  `notFound` is a `return None`;
`httpError` is the re-raised `HttpRequestError` after a TLS verification
failure; `oddReturn` models the stray string that `except ValueError` hands
back when `int(port)` fails inside `_disc_check_session`; `raisedValue` is an
uncaught `ValueError` (an `int(port)` failure inside `_disc_connect`). -/
inductive DiscResult
  | found (r : DiscoveryRecord)
  | notFound
  | httpError
  | oddReturn
  | raisedValue
deriving DecidableEq, Repr

/-- `_disc_close_to_return`: clear `self.fbx_desc` and close an open session
(the drain sleep has no modelled effect); always returns `None`. -/
def discCloseToReturn (st : ClientState) : ClientState :=
  { fbx_desc := none,
    session := st.session.map (fun s => { s with closed := true }) }

/-- The `any([...])` test in `discover` deciding whether `_disc_connect` must
run: the session is absent, not a ClientSession, or closed. -/
def sessionClosedOrAbsent (st : ClientState) : Bool :=
  match st.session with
  | none => true
  | some sess => sess.closed

/-- `_is_ipv6`, i.e. `ipaddress.IPv6Network(host)` succeeding.  We model the
necessary condition that a valid IPv6 literal contains a colon; every host
this development exercises is colon-free, on which the model is exact
(`ipaddress` rejects them all).  A `None` host stringifies to "None", which
is also rejected. -/
def isIPv6 : Option String → Bool
  | none => false
  | some s => strContainsChar s ':'

/-- `_is_ipv4`, i.e. `ipaddress.IPv4Network(host)` succeeding: a dotted quad
of four decimal octets, each 0-255 without leading zeros.  The CIDR `a/b`
form (no input here carries one) is modelled as invalid. -/
def splitOnDotAux : List Char → List Char → List (List Char)
  | [], acc => [acc.reverse]
  | c :: cs, acc =>
    if c == '.' then acc.reverse :: splitOnDotAux cs []
    else splitOnDotAux cs (c :: acc)

def splitOnDot (s : String) : List (List Char) :=
  splitOnDotAux s.data []

def validOctet (ds : List Char) : Bool :=
  (!ds.isEmpty) && ds.all isDigitChar &&
    (ds.length == 1 || !(ds.headD '0' == '0')) &&
    (match digitsVal ds with
     | some n => decide (n ≤ 255)
     | none => false)

def isIPv4 (s : String) : Bool :=
  (!strContainsChar s '/') &&
    (let parts := splitOnDot s
     parts.length == 4 && parts.all validOctet)

/-- Outcome of `_disc_connect`: a fresh open session, a `None` return after
`_disc_close_to_return`, or an uncaught `int(port)` `ValueError`. -/
inductive ConnectResult
  | ok (st : ClientState)
  | fail (st : ClientState)
  | raisedValue
deriving DecidableEq, Repr

/-- `_disc_connect`: raw-socket pre-check (evaluating `int(port)` first), then
TLS context creation for the "s" scheme, then a new ClientSession whose pooled
connection carries the requested host/port/TLS triple. -/
def discConnect (st : ClientState) (h p s : String) (net : NetOracle) :
    ConnectResult :=
  match pyInt? p with
  | none => .raisedValue
  | some pn =>
    if !net.sockConnectOk then .fail (discCloseToReturn st)
    else if s == "s" && !net.sslCtxOk then .fail (discCloseToReturn st)
    else .ok { st with session := some ⟨⟨h, pn, s == "s"⟩, false⟩ }

/-- The `GET /api_version` step of `discover`: TLS verification failures are
closed then re-raised; a non-JSON body is not-found; a JSON body is stored in
`self.fbx_desc` before the device-name check, and a wrong device name clears
it again via `_disc_close_to_return`. -/
def discGet (st : ClientState) (net : NetOracle) : DiscResult × ClientState :=
  match net.response with
  | .sslVerifyError => (.httpError, discCloseToReturn st)
  | .nonJson => (.notFound, discCloseToReturn st)
  | .json r =>
    if r.device_name = DEFAULT_DEVICE_NAME then
      (.found r, { st with fbx_desc := some r })
    else (.notFound, discCloseToReturn { st with fbx_desc := some r })

/-- The fresh-probe tail of `discover`, after `_disc_check_session` has passed
the resolved `(host, port, s)` through: connect if no session is open, then
issue the version request. -/
def discoverFresh (st : ClientState) (h p s : String) (net : NetOracle) :
    DiscResult × ClientState × DiscEffects :=
  if sessionClosedOrAbsent st then
    match discConnect st h p s net with
    | .raisedValue => (.raisedValue, st, ⟨0, 0⟩)
    | .fail st1 => (.notFound, st1, ⟨0, 0⟩)
    | .ok st1 =>
      let g := discGet st1 net
      (g.1, g.2, ⟨1, 1⟩)
  else
    let g := discGet st net
    (g.1, g.2, ⟨0, 1⟩)

/-- `discover` with fuel bounding the `_disc_check_session` recursion (the
recursion closes the session and clears `self.fbx_desc` first, so one level
always suffices; fuel 0 is an unreachable dummy).  The cached branch of
`_disc_check_session` raises `ValueError(self.fbx_desc)`, which `discover`
catches and returns: a re-probe of the triple held by the open pooled
connection answers from the cache with no network activity. -/
def discover : Nat → ClientState → Option String → Option String → NetOracle →
    DiscResult × ClientState × DiscEffects
  | 0, st, _, _, _ => (.raisedValue, st, ⟨0, 0⟩)
  | fuel + 1, st, host, port, net =>
    if isIPv6 host then (.notFound, discCloseToReturn st, ⟨0, 0⟩)
    else
      let h := (discSetHostAndPort host port).1
      let p := (discSetHostAndPort host port).2.1
      let s := (discSetHostAndPort host port).2.2
      match st.fbx_desc, st.session with
      | some desc, some sess =>
        if sess.closed then discoverFresh st h p s net
        else
          match pyInt? p with
          | none => (.oddReturn, st, ⟨0, 0⟩)
          | some pn =>
            if sess.conn.host = h ∧ sess.conn.port = pn ∧
                sess.conn.is_ssl = !s.isEmpty then
              (.found desc, st, ⟨0, 0⟩)
            else
              discover fuel (discCloseToReturn st) (some h) (some p) net
      | _, _ => discoverFresh st h p s net

/-! ### `_open_init` and `_open_setup` -/

/-- `_open_setup`: after a successful first probe, upgrade host/port using the
discovery record when https is available (an absent or IPv4 host becomes the
advertised `api_domain`; an absent or default-http port becomes the advertised
`https_port`); otherwise fill absent values with the plain defaults. -/
def openSetup (host port : Option String) (fb : DiscoveryRecord) :
    String × String :=
  if DEFAULT_SSL && fb.https_available then
    (match host with
     | none => fb.api_domain
     | some hst => if isIPv4 hst then fb.api_domain else hst,
     match port with
     | none => fb.https_port
     | some prt => if prt = DEFAULT_HTTP_PORT then fb.https_port else prt)
  else
    (host.getD DEFAULT_HOST, port.getD DEFAULT_HTTP_PORT)

/-- The `NotOpenError` message of `_open_init`, after
`next(v for v in [host, unk] if v)` substitutes the `_DEFAULT_UNKNOWN`
sentinel for a falsy value. -/
def openInitSub (v : Option String) : String :=
  match v with
  | some x => if x.isEmpty then DEFAULT_UNKNOWN else x
  | none => DEFAULT_UNKNOWN

def openInitErrorMsg (h p : String) : String :=
  "Cannot detect freebox at " ++ h ++ ":" ++ p ++
    ", please check your configuration."

inductive OpenInitResult
  | ok (host port : String) (st : ClientState)
  | cannotReach (msg : String)
  | crashed
deriving DecidableEq, Repr

/-- `_open_init`: probe, upgrade host/port with `_open_setup`, probe again; a
`None` result (and a caught `ValueError` or `HttpRequestError`) at either pass
raises `NotOpenError` with the last attempted host/port.  The subsequent
`_check_api_version` and base-url construction are modelled separately
(`checkApiVersion`); `crashed` is the unreachable dict access on a missing
`fbx_desc`. -/
def openInit (fuel : Nat) (st : ClientState) (host port : Option String)
    (net1 net2 : NetOracle) : OpenInitResult :=
  let d1 := discover fuel st host port net1
  match d1.1 with
  | .notFound | .httpError | .raisedValue =>
    .cannotReach (openInitErrorMsg (openInitSub host) (openInitSub port))
  | .found _ | .oddReturn =>
    let st1 := d1.2.1
    match st1.fbx_desc with
    | none => .crashed
    | some fb =>
      let h2 := (openSetup host port fb).1
      let p2 := (openSetup host port fb).2
      let d2 := discover fuel st1 (some h2) (some p2) net2
      match d2.1 with
      | .found _ | .oddReturn => .ok h2 p2 d2.2.1
      | .notFound | .httpError | .raisedValue =>
        .cannotReach (openInitErrorMsg (openInitSub (some h2))
          (openInitSub (some p2)))

/-! ### Helper lemmas on the polling loop -/

theorem terminalOutcome_none (s : String) (h : terminalOutcome? s = none) :
    s ≠ "granted" ∧ s ≠ "denied" ∧ s ≠ "timeout" := by
  refine ⟨?_, ?_, ?_⟩ <;> intro e <;> rw [e] at h <;> simp [terminalOutcome?] at h

/-- One loop iteration on a `pending` status: prompt only if the flag is still
unset, set the flag, sleep once, poll again. -/
theorem pollLoop_cons_pending (rest : List String) (flag : Bool) :
    pollLoop ("pending" :: rest) flag =
      ⟨(pollLoop rest true).requests + 1,
       (pollLoop rest true).prompts + (if flag then 0 else 1),
       (pollLoop rest true).sleeps + 1,
       (pollLoop rest true).outcome⟩ := by
  simp [pollLoop]

/-- One loop iteration on an unrecognized (non-terminal, non-pending) status:
no prompt, no sleep, poll again immediately. -/
theorem pollLoop_cons_other (s : String) (rest : List String) (flag : Bool)
    (hg : s ≠ "granted") (hd : s ≠ "denied") (ht : s ≠ "timeout")
    (hp : s ≠ "pending") :
    pollLoop (s :: rest) flag =
      ⟨(pollLoop rest flag).requests + 1,
       (pollLoop rest flag).prompts,
       (pollLoop rest flag).sleeps,
       (pollLoop rest flag).outcome⟩ := by
  simp [pollLoop, if_neg hd, if_neg hp, if_neg ht, if_neg hg]

/-- Behaviour of the poll loop on a run of non-terminal statuses: every status
is fetched, `pending` statuses (and only they) sleep, at most one prompt is
printed, and the loop is still going at the end. -/
theorem pollLoop_nonterminal (ss : List String) (flag : Bool)
    (h : ∀ s ∈ ss, terminalOutcome? s = none) :
    pollLoop ss flag =
      ⟨ss.length, if flag = false ∧ "pending" ∈ ss then 1 else 0,
       ss.countP (fun s => s == "pending"), .exhausted⟩ := by
  induction ss generalizing flag with
  | nil => simp [pollLoop]
  | cons s rest ih =>
    obtain ⟨hg, hd, ht⟩ := terminalOutcome_none s (h s (List.mem_cons_self s rest))
    have hrest : ∀ x ∈ rest, terminalOutcome? x = none :=
      fun x hx => h x (List.mem_cons_of_mem s hx)
    by_cases hp : s = "pending"
    · subst hp
      rw [pollLoop_cons_pending, ih true hrest]
      cases flag <;> simp [List.countP_cons]
    · rw [pollLoop_cons_other s rest flag hg hd ht hp, ih flag hrest]
      have hmem : ("pending" ∈ s :: rest) ↔ ("pending" ∈ rest) := by
        rw [List.mem_cons]
        exact ⟨fun hx => hx.elim (fun e => absurd e.symm hp) id, Or.inr⟩
      have hcnt : (s == "pending") = false := by simp [hp]
      cases flag <;> simp [List.countP_cons, hmem, hcnt]

/-- Behaviour of the poll loop when the status supply is a run of non-terminal
statuses followed by a terminal one: the loop fetches exactly the prefix plus
the terminal status and stops there with the terminal outcome. -/
theorem pollLoop_terminal (pre post : List String) (t : String)
    (o : PollOutcome) (flag : Bool)
    (hpre : ∀ s ∈ pre, terminalOutcome? s = none)
    (ht : terminalOutcome? t = some o) :
    pollLoop (pre ++ t :: post) flag =
      ⟨pre.length + 1, if flag = false ∧ "pending" ∈ pre then 1 else 0,
       pre.countP (fun s => s == "pending"), o⟩ := by
  induction pre generalizing flag with
  | nil =>
    simp only [List.nil_append]
    unfold terminalOutcome? at ht
    by_cases h1 : t = "granted"
    · subst h1; simp_all [pollLoop]
    · by_cases h2 : t = "denied"
      · subst h2; simp_all [pollLoop]
      · by_cases h3 : t = "timeout"
        · subst h3; simp_all [pollLoop]
        · simp [h1, h2, h3] at ht
  | cons s rest ih =>
    obtain ⟨hg, hd, hto⟩ := terminalOutcome_none s (hpre s (List.mem_cons_self s rest))
    have hrest : ∀ x ∈ rest, terminalOutcome? x = none :=
      fun x hx => hpre x (List.mem_cons_of_mem s hx)
    by_cases hp : s = "pending"
    · subst hp
      rw [List.cons_append, pollLoop_cons_pending, ih true hrest]
      cases flag <;> simp [List.countP_cons]
    · rw [List.cons_append, pollLoop_cons_other s _ flag hg hd hto hp,
        ih flag hrest]
      have hmem : ("pending" ∈ s :: rest) ↔ ("pending" ∈ rest) := by
        rw [List.mem_cons]
        exact ⟨fun hx => hx.elim (fun e => absurd e.symm hp) id, Or.inr⟩
      have hcnt : (s == "pending") = false := by simp [hp]
      cases flag <;> simp [List.countP_cons, hmem, hcnt]

/-- A `pairingNeeded` run gives a successful read whose condition holds. -/
theorem pairingNeeded_read (file : Option JsonObj) (d : ApplicationDescriptor)
    (h : pairingNeeded file d = true) :
    ∃ tok tr fdesc, readfileAppToken file = .ok (tok, tr, fdesc) ∧
      (tok.isNone || fileDescMismatch fdesc d) = true := by
  unfold pairingNeeded at h
  cases hr : readfileAppToken file with
  | error e => rw [hr] at h; simp at h
  | ok v =>
    obtain ⟨tok, tr, fdesc⟩ := v
    rw [hr] at h
    exact ⟨tok, tr, fdesc, rfl, h⟩

/-! ### Helper lemmas on discovery -/

/-- The scheme suffix resolved by `_disc_set_host_and_port` is "s" or "". -/
theorem discSetHostAndPort_s (host port : Option String) :
    (discSetHostAndPort host port).2.2 = "s" ∨
    (discSetHostAndPort host port).2.2 = "" := by
  simp only [discSetHostAndPort]
  split_ifs <;> simp

/-- A `found` result of the GET step stores the record in `fbx_desc`. -/
theorem discGet_found (st st1 : ClientState) (net : NetOracle)
    (r : DiscoveryRecord) (h : discGet st net = (.found r, st1)) :
    st1 = { st with fbx_desc := some r } ∧
    r.device_name = DEFAULT_DEVICE_NAME := by
  unfold discGet at h
  split at h
  · simp at h
  · simp at h
  · rename_i r0 _
    split at h
    · rename_i hd
      injection h with h1 h2
      injection h1 with h3
      subst h3
      exact ⟨h2.symm, hd⟩
    · simp at h

/-- Characterization of a successful `_disc_connect`: the port parsed and the
new session's pooled connection carries exactly the requested triple. -/
theorem discConnect_ok (st st1 : ClientState) (h p s : String)
    (net : NetOracle) (hc : discConnect st h p s net = .ok st1) :
    ∃ pn, pyInt? p = some pn ∧
      st1 = { st with session := some ⟨⟨h, pn, s == "s"⟩, false⟩ } := by
  unfold discConnect at hc
  cases hpn : pyInt? p with
  | none => rw [hpn] at hc; simp at hc
  | some pn =>
    rw [hpn] at hc
    simp only [] at hc
    split at hc
    · simp at hc
    · split at hc
      · simp at hc
      · injection hc with h1
        exact ⟨pn, rfl, h1.symm⟩

/-- A `found` result of a fresh probe from a closed-or-absent session state:
the port parsed, the new session's pooled connection carries exactly the
probed triple, the record's device name checked out, and one connection plus
one version request were spent. -/
theorem discoverFresh_found (st : ClientState) (h p s : String)
    (net : NetOracle) (r : DiscoveryRecord) (st1 : ClientState)
    (eff : DiscEffects) (hclosed : sessionClosedOrAbsent st = true)
    (hrun : discoverFresh st h p s net = (.found r, st1, eff)) :
    ∃ pn, pyInt? p = some pn ∧
      st1 = ⟨some r, some ⟨⟨h, pn, s == "s"⟩, false⟩⟩ ∧
      r.device_name = DEFAULT_DEVICE_NAME ∧ eff = ⟨1, 1⟩ := by
  unfold discoverFresh at hrun
  rw [if_pos hclosed] at hrun
  split at hrun
  · simp at hrun
  · simp at hrun
  · rename_i st2 heq
    obtain ⟨pn, hpn, hst2⟩ := discConnect_ok st st2 h p s net heq
    simp only [Prod.mk.injEq] at hrun
    obtain ⟨hA, hB, hC⟩ := hrun
    have hg : discGet st2 net = (.found r, st1) := by rw [← hA, ← hB]
    obtain ⟨hst, hdev⟩ := discGet_found _ _ _ _ hg
    refine ⟨pn, hpn, ?_, hdev, hC.symm⟩
    rw [hst, hst2]

/-- When no record is cached or no session is open, `discover` on a non-IPv6
host goes down the fresh-probe path. -/
theorem discover_closed_step (fuel : Nat) (st : ClientState)
    (host port : Option String) (net : NetOracle)
    (hclosed : st.fbx_desc = none ∨ sessionClosedOrAbsent st = true)
    (h6 : isIPv6 host = false) :
    discover (fuel + 1) st host port net =
      discoverFresh st (discSetHostAndPort host port).1
        (discSetHostAndPort host port).2.1
        (discSetHostAndPort host port).2.2 net := by
  obtain ⟨fd, ss⟩ := st
  cases fd with
  | none => cases ss <;> simp [discover, h6]
  | some desc =>
    cases ss with
    | none => simp [discover, h6]
    | some sess =>
      have hcl : sess.closed = true := by
        rcases hclosed with hc | hc
        · exact absurd hc (by simp)
        · simpa [sessionClosedOrAbsent] using hc
      simp [discover, h6, hcl]

/-- A `found` fresh probe leaves the found record in `fbx_desc`. -/
theorem discoverFresh_found_desc (st : ClientState) (h p s : String)
    (net : NetOracle) (r : DiscoveryRecord) (st1 : ClientState)
    (eff : DiscEffects)
    (hrun : discoverFresh st h p s net = (.found r, st1, eff)) :
    st1.fbx_desc = some r := by
  unfold discoverFresh at hrun
  split at hrun
  · split at hrun
    · simp at hrun
    · simp at hrun
    · rename_i st2 heq
      simp only [Prod.mk.injEq] at hrun
      obtain ⟨hA, hB, _⟩ := hrun
      have hg : discGet st2 net = (.found r, st1) := by rw [← hA, ← hB]
      obtain ⟨hst, _⟩ := discGet_found _ _ _ _ hg
      rw [hst]
  · simp only [Prod.mk.injEq] at hrun
    obtain ⟨hA, hB, _⟩ := hrun
    have hg : discGet st net = (.found r, st1) := by rw [← hA, ← hB]
    obtain ⟨hst, _⟩ := discGet_found _ _ _ _ hg
    rw [hst]

/-- A `found` discovery leaves the found record in `fbx_desc`. -/
theorem discover_found_desc :
    ∀ (fuel : Nat) (st : ClientState) (host port : Option String)
      (net : NetOracle) (r : DiscoveryRecord) (st1 : ClientState)
      (eff : DiscEffects),
      discover fuel st host port net = (.found r, st1, eff) →
      st1.fbx_desc = some r := by
  intro fuel
  induction fuel with
  | zero =>
    intro st host port net r st1 eff h
    simp [discover] at h
  | succ n ih =>
    intro st host port net r st1 eff h
    cases hx : isIPv6 host with
    | true => simp [discover, hx] at h
    | false =>
      obtain ⟨fd, ss⟩ := st
      cases fd with
      | none =>
        rw [discover_closed_step n ⟨none, ss⟩ host port net (Or.inl rfl) hx] at h
        exact discoverFresh_found_desc _ _ _ _ _ _ _ _ h
      | some desc =>
        cases ss with
        | none =>
          rw [discover_closed_step n ⟨some desc, none⟩ host port net
            (Or.inr rfl) hx] at h
          exact discoverFresh_found_desc _ _ _ _ _ _ _ _ h
        | some sess =>
          cases hcl : sess.closed with
          | true =>
            rw [discover_closed_step n ⟨some desc, some sess⟩ host port net
              (Or.inr (by simpa [sessionClosedOrAbsent] using hcl)) hx] at h
            exact discoverFresh_found_desc _ _ _ _ _ _ _ _ h
          | false =>
            simp only [discover, hx, hcl, Bool.false_eq_true, if_false] at h
            cases hpn : pyInt? (discSetHostAndPort host port).2.1 with
            | none => rw [hpn] at h; simp at h
            | some pn =>
              rw [hpn] at h
              simp only [] at h
              split at h
              · simp only [Prod.mk.injEq] at h
                obtain ⟨hdr, hstq, _⟩ := h
                injection hdr with hdr
                rw [← hstq, hdr]
              · exact ih _ _ _ _ _ _ _ h

/-! ### Claim theorems -/

/-- C1: a stored credential whose descriptor fingerprint matches the caller's
current four-field `ApplicationDescriptor` and whose `app_token` is present
makes `_get_app_access` return the stored token without issuing any
`login/authorize` request (neither the authorize POST nor a status poll); a
stored credential whose fingerprint differs re-runs the full pairing flow
(exactly one authorize POST) and, once granted, overwrites the credential file
with the new token and the current descriptor. -/
theorem C1_credential_reuse :
    (∀ (f : JsonObj) (d : ApplicationDescriptor) (env : PairEnv) (t : String)
        (tr : Option String),
      readfileAppToken (some f) = .ok (some t, tr, some (toPartial d)) →
      (getAppAccess (some f) d env).authorizeRequests = 0 ∧
      (getAppAccess (some f) d env).statusRequests = 0 ∧
      (getAppAccess (some f) d env).result = .ok t) ∧
    (∀ (f : JsonObj) (d : ApplicationDescriptor) (env : PairEnv)
        (tok tr : Option String) (p : Option PartialDescriptor),
      readfileAppToken (some f) = .ok (tok, tr, p) →
      fileDescMismatch p d = true →
      env.authSuccess = true →
      (pollLoop env.statuses false).outcome = .granted →
      (getAppAccess (some f) d env).authorizeRequests = 1 ∧
      (getAppAccess (some f) d env).fileAfter =
        some (writefileAppToken env.newAppToken env.newTrackId d)) := by
  constructor
  · intro f d env t tr h
    simp [getAppAccess, h, fileDescMismatch]
  · intro f d env tok tr p h hmis hauth hgr
    simp [getAppAccess, h, hmis, hauth, hgr]

theorem C1_credential_reuse_witness :
    ((getAppAccess
        (some (writefileAppToken "tokA" "7"
          ⟨"aiofpbx", "aiofreepybox", "1.0.0", "testhost"⟩))
        ⟨"aiofpbx", "aiofreepybox", "1.0.0", "testhost"⟩
        ⟨true, "tokB", "8", ["granted"]⟩).authorizeRequests = 0 ∧
     (getAppAccess
        (some (writefileAppToken "tokA" "7"
          ⟨"aiofpbx", "aiofreepybox", "1.0.0", "testhost"⟩))
        ⟨"aiofpbx", "aiofreepybox", "1.0.0", "testhost"⟩
        ⟨true, "tokB", "8", ["granted"]⟩).statusRequests = 0 ∧
     (getAppAccess
        (some (writefileAppToken "tokA" "7"
          ⟨"aiofpbx", "aiofreepybox", "1.0.0", "testhost"⟩))
        ⟨"aiofpbx", "aiofreepybox", "1.0.0", "testhost"⟩
        ⟨true, "tokB", "8", ["granted"]⟩).result = .ok "tokA") ∧
    ((getAppAccess
        (some (writefileAppToken "tokA" "7"
          ⟨"aiofpbx", "aiofreepybox", "1.0.0", "testhost"⟩))
        ⟨"aiofpbx", "aiofreepybox", "2.0.0", "testhost"⟩
        ⟨true, "tokB", "8", ["granted"]⟩).authorizeRequests = 1 ∧
     (getAppAccess
        (some (writefileAppToken "tokA" "7"
          ⟨"aiofpbx", "aiofreepybox", "1.0.0", "testhost"⟩))
        ⟨"aiofpbx", "aiofreepybox", "2.0.0", "testhost"⟩
        ⟨true, "tokB", "8", ["granted"]⟩).fileAfter =
      some (writefileAppToken "tokB" "8"
        ⟨"aiofpbx", "aiofreepybox", "2.0.0", "testhost"⟩)) :=
  ⟨C1_credential_reuse.1 _ _ _ "tokA" (some "7") rfl,
   C1_credential_reuse.2 _ _ _ (some "tokA") (some "7")
     (some (toPartial ⟨"aiofpbx", "aiofreepybox", "1.0.0", "testhost"⟩))
     rfl (by decide) rfl rfl⟩

/-- C2: a pairing run whose appliance reports [pending, pending, granted]
prints exactly one prompt and sleeps exactly twice before succeeding; a run
whose reported statuses end in "denied" raises the denied authorization error
and leaves the credential file untouched; a run whose reported statuses end
in "timeout" raises the timed-out authorization error and leaves the
credential file untouched. -/
theorem C2_pairing_terminal_states :
    (∀ (file : Option JsonObj) (d : ApplicationDescriptor) (env : PairEnv),
      pairingNeeded file d = true → env.authSuccess = true →
      env.statuses = ["pending", "pending", "granted"] →
      (getAppAccess file d env).prompts = 1 ∧
      (getAppAccess file d env).sleeps = 2 ∧
      (getAppAccess file d env).result = .ok env.newAppToken) ∧
    (∀ (file : Option JsonObj) (d : ApplicationDescriptor) (env : PairEnv)
        (pre : List String),
      pairingNeeded file d = true → env.authSuccess = true →
      (∀ s ∈ pre, terminalOutcome? s = none) →
      env.statuses = pre ++ ["denied"] →
      (getAppAccess file d env).result = .err .denied ∧
      (getAppAccess file d env).fileAfter = file) ∧
    (∀ (file : Option JsonObj) (d : ApplicationDescriptor) (env : PairEnv)
        (pre : List String),
      pairingNeeded file d = true → env.authSuccess = true →
      (∀ s ∈ pre, terminalOutcome? s = none) →
      env.statuses = pre ++ ["timeout"] →
      (getAppAccess file d env).result = .err .timedOut ∧
      (getAppAccess file d env).fileAfter = file) := by
  refine ⟨?_, ?_, ?_⟩
  · intro file d env hpn hauth hst
    obtain ⟨tok, tr, fdesc, hr, hcond⟩ := pairingNeeded_read file d hpn
    have hpl : pollLoop env.statuses false = ⟨3, 1, 2, .granted⟩ := by
      rw [hst]; rfl
    simp [getAppAccess, hr, hcond, hauth, hpl]
  · intro file d env pre hpn hauth hpre hst
    obtain ⟨tok, tr, fdesc, hr, hcond⟩ := pairingNeeded_read file d hpn
    have hpl : pollLoop env.statuses false =
        ⟨pre.length + 1, if false = false ∧ "pending" ∈ pre then 1 else 0,
         pre.countP (fun s => s == "pending"), .denied⟩ := by
      rw [hst]; exact pollLoop_terminal pre [] "denied" .denied false hpre rfl
    simp [getAppAccess, hr, hcond, hauth, hpl]
  · intro file d env pre hpn hauth hpre hst
    obtain ⟨tok, tr, fdesc, hr, hcond⟩ := pairingNeeded_read file d hpn
    have hpl : pollLoop env.statuses false =
        ⟨pre.length + 1, if false = false ∧ "pending" ∈ pre then 1 else 0,
         pre.countP (fun s => s == "pending"), .timeout⟩ := by
      rw [hst]; exact pollLoop_terminal pre [] "timeout" .timeout false hpre rfl
    simp [getAppAccess, hr, hcond, hauth, hpl]

theorem C2_pairing_terminal_states_witness :
    ((getAppAccess none ⟨"aiofpbx", "aiofreepybox", "1.0.0", "hostA"⟩
        ⟨true, "nt", "9", ["pending", "pending", "granted"]⟩).prompts = 1 ∧
     (getAppAccess none ⟨"aiofpbx", "aiofreepybox", "1.0.0", "hostA"⟩
        ⟨true, "nt", "9", ["pending", "pending", "granted"]⟩).sleeps = 2 ∧
     (getAppAccess none ⟨"aiofpbx", "aiofreepybox", "1.0.0", "hostA"⟩
        ⟨true, "nt", "9", ["pending", "pending", "granted"]⟩).result =
       .ok "nt") ∧
    ((getAppAccess none ⟨"aiofpbx", "aiofreepybox", "1.0.0", "hostA"⟩
        ⟨true, "nt", "9", ["unknown", "pending", "denied"]⟩).result =
       .err .denied ∧
     (getAppAccess none ⟨"aiofpbx", "aiofreepybox", "1.0.0", "hostA"⟩
        ⟨true, "nt", "9", ["unknown", "pending", "denied"]⟩).fileAfter =
       none) ∧
    ((getAppAccess none ⟨"aiofpbx", "aiofreepybox", "1.0.0", "hostA"⟩
        ⟨true, "nt", "9", ["timeout"]⟩).result = .err .timedOut ∧
     (getAppAccess none ⟨"aiofpbx", "aiofreepybox", "1.0.0", "hostA"⟩
        ⟨true, "nt", "9", ["timeout"]⟩).fileAfter = none) :=
  ⟨C2_pairing_terminal_states.1 none _ _ (by decide) rfl rfl,
   C2_pairing_terminal_states.2.1 none _ _ ["unknown", "pending"]
     (by decide) rfl (by decide) rfl,
   C2_pairing_terminal_states.2.2 none _ _ [] (by decide) rfl (by decide) rfl⟩

/-- C3 counterexample: with the appliance reporting ["unknown", "granted"],
the poll loop does not stop at the first (non-pending) status "unknown" as the
claim states: it issues a second status request and then succeeds.  The loop
condition is `status != "granted"`, so "unknown" is non-terminal. -/
theorem C3_counterexample :
    (getAppAccess none ⟨"aiofpbx", "aiofreepybox", "1.0.0", "testhost"⟩
        ⟨true, "tok", "42", ["unknown", "granted"]⟩).statusRequests = 2 ∧
    ¬ (getAppAccess none ⟨"aiofpbx", "aiofreepybox", "1.0.0", "testhost"⟩
        ⟨true, "tok", "42", ["unknown", "granted"]⟩).statusRequests = 1 ∧
    (getAppAccess none ⟨"aiofpbx", "aiofreepybox", "1.0.0", "testhost"⟩
        ⟨true, "tok", "42", ["unknown", "granted"]⟩).result = .ok "tok" := by
  decide

/-- C3 (amended): the polling loop continues (issues another status request)
while the reported status is anything other than "granted", "denied" or
"timeout" — "pending" and unrecognized values such as "unknown" both
continue — and stops exactly at the first "granted"/"denied"/"timeout"
status, with that status's outcome. -/
theorem C3_poll_continues_until_terminal :
    (∀ (ss : List String) (flag : Bool),
      (∀ s ∈ ss, terminalOutcome? s = none) →
      (pollLoop ss flag).requests = ss.length ∧
      (pollLoop ss flag).outcome = .exhausted) ∧
    (∀ (pre post : List String) (t : String) (o : PollOutcome) (flag : Bool),
      (∀ s ∈ pre, terminalOutcome? s = none) →
      terminalOutcome? t = some o →
      (pollLoop (pre ++ t :: post) flag).requests = pre.length + 1 ∧
      (pollLoop (pre ++ t :: post) flag).outcome = o) := by
  constructor
  · intro ss flag h
    rw [pollLoop_nonterminal ss flag h]
    exact ⟨rfl, rfl⟩
  · intro pre post t o flag hpre ht
    rw [pollLoop_terminal pre post t o flag hpre ht]
    exact ⟨rfl, rfl⟩

theorem C3_poll_continues_until_terminal_witness :
    ((pollLoop ["unknown", "pending"] false).requests =
       (["unknown", "pending"] : List String).length ∧
     (pollLoop ["unknown", "pending"] false).outcome = .exhausted) ∧
    ((pollLoop (["unknown"] ++ "denied" :: ["pending"]) false).requests =
       (["unknown"] : List String).length + 1 ∧
     (pollLoop (["unknown"] ++ "denied" :: ["pending"]) false).outcome =
       .denied) :=
  ⟨C3_poll_continues_until_terminal.1 ["unknown", "pending"] false (by decide),
   C3_poll_continues_until_terminal.2 ["unknown"] ["pending"] "denied"
     .denied false (by decide) (by decide)⟩

/-- C9: the one-second sleep happens only in the "pending" branch of the poll
loop: over any run of non-terminal statuses the number of sleeps equals the
number of "pending" statuses while every status — including values such as
"unknown" — costs one status request, so a non-pending non-terminal status is
followed by the next poll with no wait. -/
theorem C9_sleep_only_when_pending :
    ∀ (ss : List String),
      (∀ s ∈ ss, terminalOutcome? s = none) →
      (pollLoop ss false).sleeps = ss.countP (fun s => s == "pending") ∧
      (pollLoop ss false).requests = ss.length := by
  intro ss h
  rw [pollLoop_nonterminal ss false h]
  exact ⟨rfl, rfl⟩

theorem C9_sleep_only_when_pending_witness :
    (pollLoop ["unknown", "pending", "unknown"] false).sleeps =
      List.countP (fun s => s == "pending")
        ["unknown", "pending", "unknown"] ∧
    (pollLoop ["unknown", "pending", "unknown"] false).requests =
      (["unknown", "pending", "unknown"] : List String).length :=
  C9_sleep_only_when_pending ["unknown", "pending", "unknown"] (by decide)

/-- C10 (frame): when the stored credential has a present token and a
descriptor equal to the caller's, `_get_app_access` leaves the credential file
exactly as it was; and any run that changes the file content must have taken
the pairing branch, i.e. the stored token was missing or the stored
descriptor mismatched. -/
theorem C10_no_write_on_matching_credential :
    (∀ (f : JsonObj) (d : ApplicationDescriptor) (env : PairEnv) (t : String)
        (tr : Option String),
      readfileAppToken (some f) = .ok (some t, tr, some (toPartial d)) →
      (getAppAccess (some f) d env).fileAfter = some f) ∧
    (∀ (file : Option JsonObj) (d : ApplicationDescriptor) (env : PairEnv),
      (getAppAccess file d env).fileAfter ≠ file →
      ∃ tok tr fdesc, readfileAppToken file = .ok (tok, tr, fdesc) ∧
        (tok.isNone || fileDescMismatch fdesc d) = true) := by
  constructor
  · intro f d env t tr h
    simp [getAppAccess, h, fileDescMismatch]
  · intro file d env hne
    cases hr : readfileAppToken file with
    | error e => simp [getAppAccess, hr] at hne
    | ok v =>
      obtain ⟨tok, tr, fdesc⟩ := v
      by_cases hc : (tok.isNone || fileDescMismatch fdesc d) = true
      · exact ⟨tok, tr, fdesc, rfl, hc⟩
      · have hcf : (tok.isNone || fileDescMismatch fdesc d) = false :=
          Bool.eq_false_iff.mpr hc
        simp [getAppAccess, hr, hcf] at hne

theorem C10_no_write_on_matching_credential_witness :
    ((getAppAccess
        (some (writefileAppToken "tokA" "7"
          ⟨"aiofpbx", "aiofreepybox", "1.0.0", "hostB"⟩))
        ⟨"aiofpbx", "aiofreepybox", "1.0.0", "hostB"⟩
        ⟨true, "tokB", "8", ["denied"]⟩).fileAfter =
      some (writefileAppToken "tokA" "7"
        ⟨"aiofpbx", "aiofreepybox", "1.0.0", "hostB"⟩)) ∧
    (∃ tok tr fdesc, readfileAppToken none = .ok (tok, tr, fdesc) ∧
      (tok.isNone ||
        fileDescMismatch fdesc
          ⟨"aiofpbx", "aiofreepybox", "1.0.0", "hostB"⟩) = true) :=
  ⟨C10_no_write_on_matching_credential.1 _ _ _ "tokA" (some "7") rfl,
   C10_no_write_on_matching_credential.2 none
     ⟨"aiofpbx", "aiofreepybox", "1.0.0", "hostB"⟩
     ⟨true, "tokB", "8", ["granted"]⟩ (by decide)⟩

/-- C8: writing a credential (token, track id, four-field descriptor) and
reading it back yields exactly the same token, the same track id, and the
same four descriptor fields. -/
theorem C8_roundtrip :
    ∀ (app_token track_id : String) (d : ApplicationDescriptor),
      readfileAppToken (some (writefileAppToken app_token track_id d)) =
        .ok (some app_token, some track_id,
          some ⟨some d.app_id, some d.app_name, some d.app_version,
                some d.device_name⟩) := by
  intro t tr d
  rfl

/-- C5: the four concrete cases of the host/port fallback ladder of
`_disc_set_host_and_port` ("s" is the https scheme suffix, "" plain http). -/
theorem C5_host_port_fallback :
    discSetHostAndPort none none = (DEFAULT_HOST, DEFAULT_HTTPS_PORT, "s") ∧
    discSetHostAndPort (some "10.0.0.1") none =
      ("10.0.0.1", DEFAULT_HTTP_PORT, "") ∧
    discSetHostAndPort none (some "80") = (DEFAULT_HOST, "80", "") ∧
    discSetHostAndPort (some "10.0.0.1") (some "443") =
      ("10.0.0.1", "443", "s") := by
  refine ⟨rfl, rfl, rfl, rfl⟩

/-- C4 counterexample: requesting "v5" against an appliance advertising major
version "4" has short version "5" lexicographically greater than "4", yet
`_check_api_version` keeps "v5" with a deprecation warning instead of
resetting to the baseline; and requesting "v6" against "8" matches no branch
at all: the version stays "v6" with no warning, not a reset-with-warning. -/
theorem C4_counterexample :
    checkApiVersion "v5" "4.0" = some ("v5", [VersionWarning.deprecated]) ∧
    checkApiVersion "v5" "4.0" ≠
      some (DEFAULT_API_VERSION, [VersionWarning.reset]) ∧
    pyStrLt (serverVersion "4.0") "5" = true ∧
    checkApiVersion "v6" "8.0" = some ("v6", []) := by
  exact ⟨by decide, by decide, by decide, by decide⟩

/-- C4 (amended): for requested versions whose short form parses as an
integer, `_check_api_version` never aborts the open sequence, and it resets
to the baseline "v6" (with a warning) exactly when the requested short
version is lexicographically greater than the server's or its integer value
is below 1, provided neither earlier branch fires: the request is not the
matching-newer-than-baseline case and not the deprecated case (short below
"6" with a positive integer value). -/
theorem C4_reset_characterization :
    ∀ (api fbx : String) (n : Int),
      pyInt? (strDrop1 (resolvedApiVersion api fbx)) = some n →
      (∃ res, checkApiVersion api fbx = some res) ∧
      (checkApiVersion api fbx =
          some (DEFAULT_API_VERSION, [VersionWarning.reset]) ↔
        (¬(pyStrLt (strDrop1 DEFAULT_API_VERSION) (serverVersion fbx) &&
            (strDrop1 (resolvedApiVersion api fbx) == serverVersion fbx)) =
              true ∧
         ¬(pyStrLt (strDrop1 (resolvedApiVersion api fbx))
              (strDrop1 DEFAULT_API_VERSION) = true ∧ 0 < n) ∧
         (pyStrLt (serverVersion fbx)
              (strDrop1 (resolvedApiVersion api fbx)) = true ∨ n < 1))) := by
  intro api fbx n hn
  simp only [checkApiVersion]
  by_cases h1 : (pyStrLt (strDrop1 DEFAULT_API_VERSION) (serverVersion fbx) &&
      (strDrop1 (resolvedApiVersion api fbx) == serverVersion fbx)) = true
  · rw [if_pos h1]
    refine ⟨⟨_, rfl⟩, ?_, ?_⟩
    · intro he
      simp [DEFAULT_API_VERSION] at he
    · rintro ⟨ha, _, _⟩
      exact absurd h1 ha
  · rw [if_neg h1]
    by_cases h2 : pyStrLt (strDrop1 (resolvedApiVersion api fbx))
        (strDrop1 DEFAULT_API_VERSION) = true
    · rw [if_pos h2]
      simp only [hn]
      by_cases h3 : 0 < n
      · rw [if_pos h3]
        refine ⟨⟨_, rfl⟩, ?_, ?_⟩
        · intro he
          simp [DEFAULT_API_VERSION] at he
        · rintro ⟨_, hb, _⟩
          exact absurd ⟨h2, h3⟩ hb
      · rw [if_neg h3]
        refine ⟨⟨_, rfl⟩, ?_, fun _ => rfl⟩
        intro _
        exact ⟨h1, fun hx => absurd hx.2 h3, Or.inr (by omega)⟩
    · rw [if_neg h2]
      by_cases h4 : pyStrLt (serverVersion fbx)
          (strDrop1 (resolvedApiVersion api fbx)) = true
      · rw [if_pos h4]
        refine ⟨⟨_, rfl⟩, ?_, fun _ => rfl⟩
        intro _
        exact ⟨h1, fun hx => absurd hx.1 h2, Or.inl h4⟩
      · rw [if_neg h4]
        simp only [hn]
        by_cases h5 : n < 1
        · rw [if_pos h5]
          refine ⟨⟨_, rfl⟩, ?_, fun _ => rfl⟩
          intro _
          exact ⟨h1, fun hx => absurd hx.1 h2, Or.inr h5⟩
        · rw [if_neg h5]
          refine ⟨⟨_, rfl⟩, ?_, ?_⟩
          · intro he
            simp at he
          · rintro ⟨_, _, hc | hc⟩
            · exact absurd hc h4
            · exact absurd hc h5

theorem C4_reset_characterization_witness :
    (∃ res, checkApiVersion "v5" "4.0" = some res) ∧
    (checkApiVersion "v5" "4.0" =
        some (DEFAULT_API_VERSION, [VersionWarning.reset]) ↔
      (¬(pyStrLt (strDrop1 DEFAULT_API_VERSION) (serverVersion "4.0") &&
          (strDrop1 (resolvedApiVersion "v5" "4.0") == serverVersion "4.0")) =
            true ∧
       ¬(pyStrLt (strDrop1 (resolvedApiVersion "v5" "4.0"))
            (strDrop1 DEFAULT_API_VERSION) = true ∧ (0 : Int) < 5) ∧
       (pyStrLt (serverVersion "4.0")
            (strDrop1 (resolvedApiVersion "v5" "4.0")) = true ∨
          (5 : Int) < 1))) :=
  C4_reset_characterization "v5" "4.0" 5 (by decide)

/-- C7: probing the same host/port twice in a row from a fresh (no open
session) state, with a successful first probe and no intervening close, makes
the second probe return the cached record with the state unchanged and with
zero new connections and zero version-info requests, whatever the network
would have answered. -/
theorem C7_discovery_idempotent
    (fuel fuel2 : Nat) (st0 st1 : ClientState) (host port : Option String)
    (net net2 : NetOracle) (r : DiscoveryRecord) (eff : DiscEffects)
    (hclosed : sessionClosedOrAbsent st0 = true)
    (h1 : discover (fuel + 1) st0 host port net = (.found r, st1, eff)) :
    discover (fuel2 + 1) st1 host port net2 = (.found r, st1, ⟨0, 0⟩) := by
  have h6 : isIPv6 host = false := by
    cases hx : isIPv6 host
    · rfl
    · simp [discover, hx] at h1
  rw [discover_closed_step fuel st0 host port net (Or.inr hclosed) h6] at h1
  obtain ⟨pn, hpn, hst1, hdev, heff⟩ :=
    discoverFresh_found st0 _ _ _ net r st1 eff hclosed h1
  subst hst1
  have hes : "s".isEmpty = false := by decide
  have hee : "".isEmpty = true := by decide
  rcases discSetHostAndPort_s host port with hs | hs <;>
    simp [discover, h6, hpn, hs, hes, hee]

theorem C7_discovery_idempotent_witness :
    sessionClosedOrAbsent ⟨none, none⟩ = true ∧
    discover 1 ⟨none, none⟩ (some "10.0.0.1") (some "443")
        ⟨true, true, .json ⟨"Freebox Server", "8.0", "/api/", true,
          "example.fbxos.fr", "443"⟩⟩ =
      (.found ⟨"Freebox Server", "8.0", "/api/", true,
          "example.fbxos.fr", "443"⟩,
       ⟨some ⟨"Freebox Server", "8.0", "/api/", true,
          "example.fbxos.fr", "443"⟩,
        some ⟨⟨"10.0.0.1", 443, true⟩, false⟩⟩, ⟨1, 1⟩) ∧
    discover 1
        ⟨some ⟨"Freebox Server", "8.0", "/api/", true,
          "example.fbxos.fr", "443"⟩,
         some ⟨⟨"10.0.0.1", 443, true⟩, false⟩⟩
        (some "10.0.0.1") (some "443") ⟨false, false, .nonJson⟩ =
      (.found ⟨"Freebox Server", "8.0", "/api/", true,
          "example.fbxos.fr", "443"⟩,
       ⟨some ⟨"Freebox Server", "8.0", "/api/", true,
          "example.fbxos.fr", "443"⟩,
        some ⟨⟨"10.0.0.1", 443, true⟩, false⟩⟩, ⟨0, 0⟩) :=
  ⟨rfl, by decide,
   C7_discovery_idempotent 0 0 ⟨none, none⟩ _ (some "10.0.0.1") (some "443")
     ⟨true, true, .json ⟨"Freebox Server", "8.0", "/api/", true,
       "example.fbxos.fr", "443"⟩⟩
     ⟨false, false, .nonJson⟩ _ ⟨1, 1⟩ rfl (by decide)⟩

/-- C6: if discovery fails at either pass of the two-pass `_open_init`
negotiation (a not-found result, a transport error, or the raised
`ValueError`), `_open_init` raises the cannot-detect error carrying the last
attempted host and port, with the "None" sentinel substituted for a value the
caller never supplied; it never proceeds to the access/pairing stage. -/
theorem C6_open_init_error
    (fuel : Nat) (st : ClientState) (host port : Option String)
    (net1 net2 : NetOracle) :
    (((discover fuel st host port net1).1 = .notFound ∨
      (discover fuel st host port net1).1 = .httpError ∨
      (discover fuel st host port net1).1 = .raisedValue) →
      openInit fuel st host port net1 net2 =
        .cannotReach (openInitErrorMsg (openInitSub host) (openInitSub port))) ∧
    (∀ (r : DiscoveryRecord) (st1 : ClientState) (eff : DiscEffects),
      discover fuel st host port net1 = (.found r, st1, eff) →
      ((discover fuel st1 (some (openSetup host port r).1)
          (some (openSetup host port r).2) net2).1 = .notFound ∨
       (discover fuel st1 (some (openSetup host port r).1)
          (some (openSetup host port r).2) net2).1 = .httpError ∨
       (discover fuel st1 (some (openSetup host port r).1)
          (some (openSetup host port r).2) net2).1 = .raisedValue) →
      openInit fuel st host port net1 net2 =
        .cannotReach (openInitErrorMsg
          (openInitSub (some (openSetup host port r).1))
          (openInitSub (some (openSetup host port r).2)))) := by
  constructor
  · intro hfail
    rcases hfail with hf | hf | hf <;> simp only [openInit, hf]
  · intro r st1 eff h1 hfail2
    have hdesc : st1.fbx_desc = some r :=
      discover_found_desc fuel st host port net1 r st1 eff h1
    rcases hfail2 with hf | hf | hf <;>
      simp only [openInit, h1, hdesc, hf]

theorem C6_open_init_error_witness :
    (openInit 1 ⟨none, none⟩ none none ⟨false, true, .nonJson⟩
        ⟨true, true, .json ⟨"Freebox Server", "8.0", "/api/", true,
          "example.fbxos.fr", "443"⟩⟩ =
      .cannotReach (openInitErrorMsg (openInitSub none) (openInitSub none))) ∧
    (openInit 2 ⟨none, none⟩ none none
        ⟨true, true, .json ⟨"Freebox Server", "8.0", "/api/", true,
          "example.fbxos.fr", "443"⟩⟩
        ⟨false, true, .nonJson⟩ =
      .cannotReach (openInitErrorMsg
        (openInitSub (some (openSetup none none
          ⟨"Freebox Server", "8.0", "/api/", true,
            "example.fbxos.fr", "443"⟩).1))
        (openInitSub (some (openSetup none none
          ⟨"Freebox Server", "8.0", "/api/", true,
            "example.fbxos.fr", "443"⟩).2)))) :=
  ⟨(C6_open_init_error 1 ⟨none, none⟩ none none ⟨false, true, .nonJson⟩
      ⟨true, true, .json ⟨"Freebox Server", "8.0", "/api/", true,
        "example.fbxos.fr", "443"⟩⟩).1 (Or.inl (by decide)),
   (C6_open_init_error 2 ⟨none, none⟩ none none
      ⟨true, true, .json ⟨"Freebox Server", "8.0", "/api/", true,
        "example.fbxos.fr", "443"⟩⟩
      ⟨false, true, .nonJson⟩).2
     ⟨"Freebox Server", "8.0", "/api/", true, "example.fbxos.fr", "443"⟩
     ⟨some ⟨"Freebox Server", "8.0", "/api/", true,
        "example.fbxos.fr", "443"⟩,
      some ⟨⟨"mafreebox.freebox.fr", 443, true⟩, false⟩⟩
     ⟨1, 1⟩ (by decide) (Or.inl (by decide))⟩

end Aiofreepybox
